import Mathlib

/-
Verification of the rule-validation engine of `app.py` (contrôle des données
de télérelève).  The definitions below are a shallow embedding of
`check_data` (app.py lines 87-251) and `check_fp2e_details` (lines 41-84).

Modelling conventions:
* A cell of the input table is taken after pandas' `astype(str)` for the six
  textual columns, so an absent (NaN) cell is the string "nan"; the code then
  maps the literal "nan" to "" (`.replace('nan', '', regex=False)`), embedded
  as `normCell`.
* `Latitude`, `Longitude` and `Diametre` are only ever used through
  `pd.to_numeric(..., errors='coerce')`, so those fields are embedded as
  `Option ℚ` (none = NaN after coercion, i.e. absent or unparsable).
* `Année de fabrication` is used as a string (lines 94-98 rework it in
  place), so it stays a raw string field.
* Python's `str.upper`/`str.lower` are embedded for ASCII letters plus the
  accented letters that occur in the rule constants ('é'/'è'); every other
  character is kept.  For every character occurring in the comparisons made
  by the code this agrees with Python.
* Python floats are embedded as ℚ; `str(int(float(x)))` (line 96, applied
  only when `x` is made of digits and at most one dot) is embedded as exact
  decimal truncation.
-/

namespace ControleTele

/-- Python `str.upper` on one character, restricted to the alphabet used by
the rule constants (ASCII letters, 'é', 'è'). -/
def pyCharUpper (c : Char) : Char :=
  if c = 'é' then 'É' else if c = 'è' then 'È' else c.toUpper

/-- Python `str.lower` on one character, same restriction. -/
def pyCharLower (c : Char) : Char :=
  if c = 'É' then 'é' else if c = 'È' then 'è' else c.toLower

/-- Python `str.upper` (pandas `.str.upper()`). -/
def pyUpper (s : String) : String :=
  String.mk (s.data.map pyCharUpper)

/-- Python `str.lower` (pandas `.str.lower()`). -/
def pyLower (s : String) : String :=
  String.mk (s.data.map pyCharLower)

/-- Whitespace characters stripped by Python `str.strip()`. -/
def isSpaceChar (c : Char) : Bool :=
  c = ' ' || c = '\t' || c = '\n' || c = '\r' || c = '\x0b' || c = '\x0c'

/-- Python `str.strip()`. -/
def pyStrip (s : String) : String :=
  String.mk (((s.data.dropWhile isSpaceChar).reverse.dropWhile isSpaceChar).reverse)

/-- ASCII decimal digit. -/
def isDigitChar (c : Char) : Bool :=
  '0' ≤ c && c ≤ '9'

/-- Python `str.isdigit()` (ASCII digits; non-empty). -/
def pyIsDigit (s : String) : Bool :=
  !s.data.isEmpty && s.data.all isDigitChar

/-- One character list starts with another (structural, so that concrete
rows evaluate inside the kernel). -/
def charsPrefix : List Char → List Char → Bool
  | [], _ => true
  | _ :: _, [] => false
  | p :: ps, c :: cs => p == c && charsPrefix ps cs

/-- Python `str.startswith` (pandas `.str.startswith`). -/
def strStartsWith (s pre : String) : Bool :=
  charsPrefix pre.data s.data

/-- Value of a list of ASCII digit characters read in base 10. -/
def digitsToNat (cs : List Char) : Nat :=
  cs.foldl (fun n c => n * 10 + (c.toNat - '0'.toNat)) 0

/-- `.replace('nan', '', regex=False)` applied to one cell (app.py lines
94, 111-116): the literal string "nan" (pandas' `astype(str)` image of NaN)
becomes the empty string. -/
def normCell (s : String) : String :=
  if s = "nan" then "" else s

/-- The `isin(['', 'nan'])` test used throughout `check_data` for absence. -/
def isMissingStr (s : String) : Bool :=
  s = "" || s = "nan"

/-- `x.replace('.', '', 1)`: remove the first dot, if any. -/
def removeFirstDot : List Char → List Char
  | [] => []
  | c :: cs => if c = '.' then cs else c :: removeFirstDot cs

/-- The digits before the first dot, as a number (`int(float(x))` for a
string made of digits and at most one dot; an empty integer part is 0). -/
def intPartBeforeDot (s : String) : Nat :=
  digitsToNat (s.data.takeWhile (fun c => c ≠ '.'))

/-- app.py line 96: the lambda applied to the year column.
`str(int(float(x)))` when `x` (first dot removed) is all digits and `x` is
non-empty, else `x` unchanged.  `int(float _)` is embedded as exact decimal
truncation. -/
def yearLambda (x : String) : String :=
  if pyIsDigit (String.mk (removeFirstDot x.data)) && !(x == "") then
    toString (intPartBeforeDot x)
  else x

/-- Python `s[-2:]` (pandas `.str.slice(-2)`). -/
def sliceLast2 (s : String) : String :=
  String.mk (s.data.drop (s.data.length - 2))

/-- Python `s.zfill(2)` (pandas `.str.zfill(2)`): pad with zeros on the left
to width 2; a leading sign stays in front of the padding. -/
def pyZfill2 (s : String) : String :=
  if s.length ≥ 2 then s
  else
    match s.data with
    | [] => "00"
    | c :: rest =>
      if c = '-' || c = '+' then String.mk (c :: '0' :: rest)
      else String.mk ('0' :: c :: rest)

/-- app.py lines 94-98: the whole normalization of `Année de fabrication`
(astype(str) + replace('nan',''), the numeric-truncation lambda, then
`.str.slice(-2).str.zfill(2)`). -/
def processYear (raw : String) : String :=
  pyZfill2 (sliceLast2 (yearLambda (normCell raw)))

/-- Value of ASCII digits as ℚ, scaled to a fractional part. -/
def fracValue (cs : List Char) : ℚ :=
  (digitsToNat cs : ℚ) / (10 : ℚ) ^ cs.length

/-- Unsigned decimal literal: `d+`, `d+.d*` or `.d+`. -/
def parseUnsigned (cs : List Char) : Option ℚ :=
  let intPart := cs.takeWhile (fun c => c ≠ '.')
  match cs.drop intPart.length with
  | [] =>
    if !intPart.isEmpty && intPart.all isDigitChar then
      some ((digitsToNat intPart : ℚ))
    else none
  | '.' :: frac =>
    if intPart.all isDigitChar && frac.all isDigitChar
        && (!intPart.isEmpty || !frac.isEmpty) then
      some ((digitsToNat intPart : ℚ) + fracValue frac)
    else none
  | _ => none

/-- `pd.to_numeric(s, errors='coerce')` on one string cell, for plain
decimal literals with optional sign and surrounding whitespace (the only
use in `check_data` is on the processed year column, whose entries are
exactly-two-character strings, so exponents and special values cannot
occur). -/
def pyToNumeric (s : String) : Option ℚ :=
  match (pyStrip s).data with
  | [] => none
  | '+' :: rest => parseUnsigned rest
  | '-' :: rest => (parseUnsigned rest).map Neg.neg
  | cs => parseUnsigned cs

/-- One row of the input table, with the textual columns after pandas'
`astype(str)` (absent = "nan") and the three numeric columns after
`pd.to_numeric(..., errors='coerce')` (absent or unparsable = none). -/
structure Record where
  protocoleRadio : String
  marque : String
  numeroCompteur : String
  numeroTete : String
  latitude : Option ℚ
  longitude : Option ℚ
  anneeFabrication : String
  diametre : Option ℚ
  traite : String
  modeReleve : String

/-- `Protocole Radio` after line 114. -/
def protocoleN (r : Record) : String := normCell r.protocoleRadio

/-- `Marque` after line 113. -/
def marqueN (r : Record) : String := normCell r.marque

/-- `Numéro de compteur` after line 111. -/
def compteurN (r : Record) : String := normCell r.numeroCompteur

/-- `Numéro de tête` after line 112. -/
def teteN (r : Record) : String := normCell r.numeroTete

/-- `Traité` after line 115. -/
def traiteN (r : Record) : String := normCell r.traite

/-- `Mode de relève` after line 116. -/
def modeN (r : Record) : String := normCell r.modeReleve

/-- `Année de fabrication` after lines 94-98. -/
def yearN (r : Record) : String := processYear r.anneeFabrication

/-- `annee_fabrication_num` (line 130). -/
def anneeNum (r : Record) : Option ℚ := pyToNumeric (yearN r)

/-- Line 123. -/
def isKamstrup (r : Record) : Bool := pyUpper (marqueN r) == "KAMSTRUP"

/-- Line 124. -/
def isSappel (r : Record) : Bool :=
  pyUpper (marqueN r) == "SAPPEL (C)" || pyUpper (marqueN r) == "SAPPEL (H)"
    || pyUpper (marqueN r) == "SAPPEL(C)"

/-- Line 125. -/
def isItron (r : Record) : Bool := pyUpper (marqueN r) == "ITRON"

/-- Line 126. -/
def isKaifa (r : Record) : Bool := pyUpper (marqueN r) == "KAIFA"

/-- Line 127. -/
def isManuelle (r : Record) : Bool := pyUpper (modeN r) == "MANUELLE"

/-- Line 128. -/
def isTelerel (r : Record) : Bool := pyUpper (modeN r) == "TÉLERELEVE"

/-- `series == 0` on a float column: NaN compares unequal to 0. -/
def optEqZero (o : Option ℚ) : Bool :=
  match o with
  | none => false
  | some q => decide (q = 0)

/-- `series.between(lo, hi)` on a float column: inclusive bounds, NaN gives
false. -/
def optBetween (o : Option ℚ) (lo hi : ℚ) : Bool :=
  match o with
  | none => false
  | some q => decide (lo ≤ q) && decide (q ≤ hi)

/-- `re.match(r'^[A-Z]\d{2}[A-Z]{2}\d{6}$', s)` (lines 54-55, 206, 231):
one ASCII uppercase letter, two digits, two uppercase letters, six digits. -/
def fp2eMatch (s : String) : Bool :=
  match s.data with
  | [c0, c1, c2, c3, c4, c5, c6, c7, c8, c9, c10] =>
    ('A' ≤ c0 && c0 ≤ 'Z') && isDigitChar c1 && isDigitChar c2
      && ('A' ≤ c3 && c3 ≤ 'Z') && ('A' ≤ c4 && c4 ≤ 'Z')
      && isDigitChar c5 && isDigitChar c6 && isDigitChar c7
      && isDigitChar c8 && isDigitChar c9 && isDigitChar c10
  | _ => false

/-- `fp2e_map.get(lettre_diam, [])` (lines 70-73), as a list of expected
diameters (floats in the source, hence ℚ here). -/
def fp2eMap (c : Char) : List ℚ :=
  if c = 'A' || c = 'U' || c = 'V' then [15]
  else if c = 'B' then [20]
  else if c = 'C' then [25]
  else if c = 'D' then [30]
  else if c = 'E' then [40]
  else if c = 'F' then [50]
  else if c = 'G' then [60, 65]
  else if c = 'H' then [80]
  else if c = 'I' then [100]
  else if c = 'J' then [125]
  else if c = 'K' then [150]
  else []

/-- The anomaly labels of `check_data` as an enumerated catalogue, in the
order the source appends them.  Each constructor stands for one exact label
string, given by `Kind.label` below. -/
inductive Kind where
  | protocoleRadioManquant
  | marqueManquante
  | numeroCompteurManquant
  | diametreManquant
  | anneeFabricationManquante
  | numeroTeteManquant
  | coordonneesNonNumeriques
  | coordonneesInvalides
  | kamstrupCompteurNot8
  | kamstrupCompteurNeqTete
  | kamstrupNonNumerique
  | kamstrupDiametreHorsPlage
  | sappelTeteNot16
  | sappelIncoherenceC
  | sappelIncoherenceH
  | itronTeteNot8
  | protocoleNotLRA
  | protocoleNotSGX
  | formatNonFp2e
  | anneeFabricationManquanteInvalide
  | anneeMillesimeNonConforme
  | diametreNonConformeFp2e
  | itronManuelID
  | sappelManuelCH
  deriving DecidableEq, Repr

/-- The label string each `Kind` stands for in the source. -/
def Kind.label : Kind → String
  | .protocoleRadioManquant => "Protocole Radio manquant"
  | .marqueManquante => "Marque manquante"
  | .numeroCompteurManquant => "Numéro de compteur manquant"
  | .diametreManquant => "Diamètre manquant"
  | .anneeFabricationManquante => "Année de fabrication manquante"
  | .numeroTeteManquant => "Numéro de tête manquant"
  | .coordonneesNonNumeriques => "Coordonnées GPS non numériques"
  | .coordonneesInvalides => "Coordonnées GPS invalides"
  | .kamstrupCompteurNot8 => "KAMSTRUP: Compteur ≠ 8 caractères"
  | .kamstrupCompteurNeqTete => "KAMSTRUP: Compteur ≠ Tête"
  | .kamstrupNonNumerique => "KAMSTRUP: Compteur ou Tête non numérique"
  | .kamstrupDiametreHorsPlage => "KAMSTRUP: Diamètre hors de la plage [15, 80]"
  | .sappelTeteNot16 => "SAPPEL: Tête ≠ 16 caractères"
  | .sappelIncoherenceC => "SAPPEL: Incohérence Marque/Compteur (C)"
  | .sappelIncoherenceH => "SAPPEL: Incohérence Marque/Compteur (H)"
  | .itronTeteNot8 => "ITRON: Tête ≠ 8 caractères"
  | .protocoleNotLRA => "Protocole ≠ LRA pour Traité 903/863"
  | .protocoleNotSGX => "Protocole ≠ SGX pour Traité non 903/863"
  | .formatNonFp2e => "Format de compteur non FP2E"
  | .anneeFabricationManquanteInvalide => "Année fabrication manquante ou invalide"
  | .anneeMillesimeNonConforme => "Année millésime non conforme FP2E"
  | .diametreNonConformeFp2e => "Diamètre non conforme FP2E"
  | .itronManuelID => "ITRON manuel: doit commencer par \"I\" ou \"D\""
  | .sappelManuelCH => "SAPPEL manuel: doit commencer par \"C\" ou \"H\""

/-- `check_fp2e_details` (lines 41-84), returning the list of detail kinds
instead of their slash-joined string (no label is an infix of a join of the
others, so the `in`-tests of lines 217-223 coincide with list membership).
The row it receives has the processed year string and the numeric diameter
(the `try` body can raise none of the caught exceptions on such a row, so
the `except` branch is unreachable and has no counterpart here). -/
def checkFp2eDetails (r : Record) : List Kind :=
  let compteur := pyStrip (compteurN r)
  let anneeVal := pyStrip (yearN r)
  if !fp2eMatch compteur then [.formatNonFp2e]
  else
    let anneeCompteur := String.mk ((compteur.data.drop 1).take 2)
    let lettreDiam := pyCharUpper (compteur.data.getD 4 ' ')
    (if anneeVal == "" || !pyIsDigit anneeVal then
      [.anneeFabricationManquanteInvalide]
     else if !(anneeCompteur == pyZfill2 anneeVal) then
      [.anneeMillesimeNonConforme]
     else []) ++
    (match r.diametre with
     | none => [.diametreNonConformeFp2e]
     | some d => if d ∈ fp2eMap lettreDiam then [] else [.diametreNonConformeFp2e])

/-- `fp2e_check_condition` (lines 208-211): non-manual SAPPEL/ITRON rows,
plus every manual row whose serial matches the FP2E grammar. -/
def fp2eCheckCondition (r : Record) : Bool :=
  ((isSappel r || isItron r) && !(pyUpper (modeN r) == "MANUELLE"))
    || ((pyUpper (modeN r) == "MANUELLE") && fp2eMatch (compteurN r))

/-- Line 137. -/
def condProtocoleManquant (r : Record) : Bool :=
  isMissingStr (protocoleN r) && !isManuelle r

/-- Line 140. -/
def condMarqueManquante (r : Record) : Bool := isMissingStr (marqueN r)

/-- Line 141. -/
def condCompteurManquant (r : Record) : Bool := isMissingStr (compteurN r)

/-- Line 142. -/
def condDiametreManquant (r : Record) : Bool := r.diametre.isNone

/-- Line 143. -/
def condAnneeManquante (r : Record) : Bool := (anneeNum r).isNone

/-- Lines 151-154: missing head serial, except for KAMSTRUP, manual mode,
or KAIFA in `TÉLERELEVE` mode. -/
def condTeteManquante (r : Record) : Bool :=
  isMissingStr (teteN r) && !isKamstrup r && !isManuelle r
    && !(isKaifa r && isTelerel r)

/-- Line 157. -/
def condCoordNonNumeriques (r : Record) : Bool :=
  r.latitude.isNone || r.longitude.isNone

/-- Lines 158-159 (`coord_invalid`; NaN fails `between`, so a NaN
coordinate also lands here). -/
def condCoordInvalides (r : Record) : Bool :=
  (optEqZero r.latitude || !optBetween r.latitude (-90) 90)
    || (optEqZero r.longitude || !optBetween r.longitude (-180) 180)

/-- Line 167. -/
def kamstrupValid (r : Record) : Bool :=
  isKamstrup r && !isMissingStr (teteN r)

/-- Line 168. -/
def condKamstrupLen (r : Record) : Bool :=
  isKamstrup r && !((compteurN r).length == 8)

/-- Line 169. -/
def condKamstrupNeqTete (r : Record) : Bool :=
  kamstrupValid r && !(compteurN r == teteN r)

/-- Line 170. -/
def condKamstrupNonNumerique (r : Record) : Bool :=
  kamstrupValid r && (!pyIsDigit (compteurN r) || !pyIsDigit (teteN r))

/-- Lines 171-172. -/
def condKamstrupDiametre (r : Record) : Bool :=
  isKamstrup r && !optBetween r.diametre 15 80

/-- Line 175. -/
def sappelValid (r : Record) : Bool :=
  isSappel r && !isMissingStr (teteN r)

/-- Line 176. -/
def condSappelTete (r : Record) : Bool :=
  sappelValid r && !((teteN r).length == 16)

/-- Line 179. -/
def condSappelC (r : Record) : Bool :=
  isSappel r && strStartsWith (compteurN r) "C"
    && !(pyUpper (marqueN r) == "SAPPEL (C)")

/-- Line 181. -/
def condSappelH (r : Record) : Bool :=
  isSappel r && strStartsWith (compteurN r) "H"
    && !(pyUpper (marqueN r) == "SAPPEL (H)")

/-- Line 184. -/
def itronValid (r : Record) : Bool :=
  isItron r && !isMissingStr (teteN r)

/-- Line 185. -/
def condItronTete (r : Record) : Bool :=
  itronValid r && !((teteN r).length == 8)

/-- Line 191. -/
def protocoleFilled (r : Record) : Bool := !isMissingStr (protocoleN r)

/-- Line 194. -/
def traiteLra (r : Record) : Bool :=
  strStartsWith (traiteN r) "903" || strStartsWith (traiteN r) "863"

/-- Line 195. -/
def condRadioLra (r : Record) : Bool :=
  traiteLra r && !(pyUpper (protocoleN r) == "LRA") && !isManuelle r
    && protocoleFilled r

/-- Line 198. -/
def condRadioSgx (r : Record) : Bool :=
  !traiteLra r && !(pyUpper (protocoleN r) == "SGX") && !isManuelle r
    && protocoleFilled r

/-- Lines 213-224: a given FP2E detail kind is appended iff the row is in
`fp2e_check_condition` and `check_fp2e_details` reported it. -/
def condFp2eKind (r : Record) (k : Kind) : Bool :=
  fp2eCheckCondition r && (checkFp2eDetails r).contains k

/-- Lines 234-235. -/
def condItronManuel (r : Record) : Bool :=
  isManuelle r && isItron r && fp2eMatch (compteurN r)
    && !(strStartsWith (pyLower (compteurN r)) "i"
          || strStartsWith (pyLower (compteurN r)) "d")

/-- Lines 238-239. -/
def condSappelManuel (r : Record) : Bool :=
  isManuelle r && isSappel r && fp2eMatch (compteurN r)
    && !(strStartsWith (pyLower (compteurN r)) "c"
          || strStartsWith (pyLower (compteurN r)) "h")

/-- The rule catalogue applied to one row: each entry is (condition, kind),
in the order `check_data` appends the labels (lines 138-239). -/
def rules (r : Record) : List (Bool × Kind) :=
  [(condProtocoleManquant r, .protocoleRadioManquant),
   (condMarqueManquante r, .marqueManquante),
   (condCompteurManquant r, .numeroCompteurManquant),
   (condDiametreManquant r, .diametreManquant),
   (condAnneeManquante r, .anneeFabricationManquante),
   (condTeteManquante r, .numeroTeteManquant),
   (condCoordNonNumeriques r, .coordonneesNonNumeriques),
   (condCoordInvalides r, .coordonneesInvalides),
   (condKamstrupLen r, .kamstrupCompteurNot8),
   (condKamstrupNeqTete r, .kamstrupCompteurNeqTete),
   (condKamstrupNonNumerique r, .kamstrupNonNumerique),
   (condKamstrupDiametre r, .kamstrupDiametreHorsPlage),
   (condSappelTete r, .sappelTeteNot16),
   (condSappelC r, .sappelIncoherenceC),
   (condSappelH r, .sappelIncoherenceH),
   (condItronTete r, .itronTeteNot8),
   (condRadioLra r, .protocoleNotLRA),
   (condRadioSgx r, .protocoleNotSGX),
   (condFp2eKind r .formatNonFp2e, .formatNonFp2e),
   (condFp2eKind r .anneeFabricationManquanteInvalide, .anneeFabricationManquanteInvalide),
   (condFp2eKind r .anneeMillesimeNonConforme, .anneeMillesimeNonConforme),
   (condFp2eKind r .diametreNonConformeFp2e, .diametreNonConformeFp2e),
   (condItronManuel r, .itronManuelID),
   (condSappelManuel r, .sappelManuelCH)]

/-- The anomaly kinds accumulated on one row of `check_data` (the row's
`Anomalie` string, as the list of its ` / `-separated labels). -/
def checkRecord (r : Record) : List Kind :=
  ((rules r).filter (fun p => p.1)).map (fun p => p.2)

/-- Every row paired with its anomaly kinds (every row is evaluated). -/
def evalRows (rows : List Record) : List (Record × List Kind) :=
  rows.map (fun r => (r, checkRecord r))

/-- Line 244: the rows kept in `anomalies_df` are exactly those whose
anomaly string is non-empty. -/
def anomalousRecords (rows : List Record) : List (Record × List Kind) :=
  (evalRows rows).filter (fun p => !p.2.isEmpty)

/-- Lines 249-250: `value_counts` of the exploded anomaly labels of the
anomalous rows, as the count of one kind. -/
def anomalyCounter (rows : List Record) (k : Kind) : Nat :=
  (((anomalousRecords rows).map (fun p => p.2)).flatten).count k

/-- Line 101. -/
def requiredColumns : List String :=
  ["Protocole Radio", "Marque", "Numéro de compteur", "Numéro de tête",
   "Latitude", "Longitude", "Année de fabrication", "Diametre", "Traité",
   "Mode de relève"]

/-- An input table: the list of column names present, and the rows. -/
structure RawTable where
  cols : List String
  rows : List Record

/-- Decimal value of one character under Python's numeric conversions
(Unicode category Nd), for the characters modelled here: the ASCII digits
and, as representatives of the non-ASCII decimal digits that both
`str.isdigit` and `float()` accept, the Arabic-Indic digits U+0660-0669.
Other Nd characters behave like these and are not enumerated. -/
def pyDecimalDigitVal (c : Char) : Option Nat :=
  if '0' ≤ c && c ≤ '9' then some (c.toNat - '0'.toNat)
  else if 0x660 ≤ c.toNat && c.toNat ≤ 0x669 then some (c.toNat - 0x660)
  else none

/-- Characters with the Unicode digit property that are NOT decimal
digits (category No), so `str.isdigit` accepts them but `float()` raises
ValueError on them; modelled by the superscript digits U+00B9, U+00B2,
U+00B3 and U+2070, U+2074-2079. -/
def isPyDigitOnlyChar (c : Char) : Bool :=
  c = '¹' || c = '²' || c = '³' || c.toNat = 0x2070
    || (0x2074 ≤ c.toNat && c.toNat ≤ 0x2079)

/-- Python's per-character `str.isdigit` over the modelled alphabet:
decimal digits plus digit-only characters. -/
def isPyDigitChar (c : Char) : Bool :=
  (pyDecimalDigitVal c).isSome || isPyDigitOnlyChar c

/-- Value of a run of decimal digits, by their Unicode decimal values. -/
def pyDigitsVal (cs : List Char) : ℕ :=
  cs.foldl (fun n c => n * 10 + (pyDecimalDigitVal c).getD 0) 0

/-- The smallest positive value whose IEEE binary64 round-to-nearest-even
image is infinite: the midpoint between the largest finite double
2^1024 - 2^971 and 2^1024.  `float(x)` is `inf` exactly when the decimal
value of `x` reaches this bound, and `int(inf)` raises OverflowError. -/
def floatInfThreshold : ℕ := 2 ^ 1024 - 2 ^ 970

/-- Whether the decimal value of a guard-passing year cell (digits with at
most one dot) reaches `floatInfThreshold`: the value intPart + frac/10^len
is at or above the threshold iff the same inequality scaled by 10^len
holds between naturals. -/
def yearOverflows (cs : List Char) : Bool :=
  let intPart := cs.takeWhile (fun c => c ≠ '.')
  let frac := (cs.drop intPart.length).drop 1
  decide (floatInfThreshold * 10 ^ frac.length ≤
    pyDigitsVal intPart * 10 ^ frac.length + pyDigitsVal frac)

/-- Whether line 96's `str(int(float(x)))` raises an uncaught exception on
one year cell: the guard `x.replace('.', '', 1).isdigit() and x != ''`
passes (Python's Unicode isdigit), and then either `float(x)` raises
ValueError (some digit-only character, which `float` rejects) or `float(x)`
is infinite and `int` raises OverflowError (decimal value at or above
`floatInfThreshold`, e.g. a year cell of 309 nines). -/
def yearRaises (raw : String) : Bool :=
  let x := normCell raw
  let y := removeFirstDot x.data
  (!y.isEmpty && y.all isPyDigitChar && !(x == "")) &&
    (x.data.any isPyDigitOnlyChar || yearOverflows x.data)

/-- `check_data` including its fallible prologue, in source order: line 94
reads the year column (KeyError if that column is absent), lines 95-97
apply the year lambda to every cell (its `str(int(float(x)))` raises an
uncaught OverflowError or ValueError on the cells captured by
`yearRaises`), and only then do lines 100-105 check the required columns
(`st.stop()` on a missing one, embedded as an error).  When nothing
raises, the pass runs to completion and returns the anomalous rows with
their kinds and the frequency count. -/
def checkData (t : RawTable) :
    Except String (List (Record × List Kind) × (Kind → Nat)) :=
  if !(t.cols.contains "Année de fabrication") then
    Except.error "KeyError: Année de fabrication"
  else if t.rows.any (fun r => yearRaises r.anneeFabrication) then
    Except.error "uncaught exception in the year normalization (line 96)"
  else if requiredColumns.all (fun c => t.cols.contains c) then
    Except.ok (anomalousRecords t.rows, anomalyCounter t.rows)
  else
    Except.error "Colonnes requises manquantes"

/-- The 24 kinds in the order `check_data` appends their labels. -/
def kindsInOrder : List Kind :=
  [.protocoleRadioManquant, .marqueManquante, .numeroCompteurManquant,
   .diametreManquant, .anneeFabricationManquante, .numeroTeteManquant,
   .coordonneesNonNumeriques, .coordonneesInvalides, .kamstrupCompteurNot8,
   .kamstrupCompteurNeqTete, .kamstrupNonNumerique, .kamstrupDiametreHorsPlage,
   .sappelTeteNot16, .sappelIncoherenceC, .sappelIncoherenceH,
   .itronTeteNot8, .protocoleNotLRA, .protocoleNotSGX,
   .formatNonFp2e, .anneeFabricationManquanteInvalide,
   .anneeMillesimeNonConforme, .diametreNonConformeFp2e,
   .itronManuelID, .sappelManuelCH]

/-- The 24 label strings are pairwise distinct, so counting kinds agrees
with the source's counting of label strings. -/
lemma kindsInOrder_labels_nodup : (kindsInOrder.map Kind.label).Nodup := by
  decide

/-- Each row's kind list is duplicate-free: each rule of the catalogue
appends a distinct kind and is evaluated once. -/
lemma checkRecord_nodup (r : Record) : (checkRecord r).Nodup := by
  have h : List.Sublist (((rules r).filter (fun p => p.1)).map (fun p => p.2))
      ((rules r).map (fun p => p.2)) :=
    List.Sublist.map (fun p => p.2) (List.filter_sublist (rules r))
  have hconst : (rules r).map (fun p : Bool × Kind => p.2) = kindsInOrder := rfl
  rw [hconst] at h
  exact List.Nodup.sublist h (by decide)

/-- Membership extraction for the head-serial kind. -/
lemma mem_numeroTeteManquant_iff (r : Record) :
    Kind.numeroTeteManquant ∈ checkRecord r ↔ condTeteManquante r = true := by
  simp [checkRecord, rules, List.mem_filter]

/-- Membership extraction for the missing-diameter kind. -/
lemma mem_diametreManquant_iff (r : Record) :
    Kind.diametreManquant ∈ checkRecord r ↔ condDiametreManquant r = true := by
  simp [checkRecord, rules, List.mem_filter]

/-- Membership extraction for the KAMSTRUP diameter-range kind. -/
lemma mem_kamstrupDiametreHorsPlage_iff (r : Record) :
    Kind.kamstrupDiametreHorsPlage ∈ checkRecord r ↔
      condKamstrupDiametre r = true := by
  simp [checkRecord, rules, List.mem_filter]

/-- Membership extraction for the SAPPEL (C) brand/serial kind. -/
lemma mem_sappelIncoherenceC_iff (r : Record) :
    Kind.sappelIncoherenceC ∈ checkRecord r ↔ condSappelC r = true := by
  simp [checkRecord, rules, List.mem_filter]

/-- Membership extraction for the SAPPEL (H) brand/serial kind. -/
lemma mem_sappelIncoherenceH_iff (r : Record) :
    Kind.sappelIncoherenceH ∈ checkRecord r ↔ condSappelH r = true := by
  simp [checkRecord, rules, List.mem_filter]

/-- Membership extraction for the non-numeric-coordinates kind. -/
lemma mem_coordonneesNonNumeriques_iff (r : Record) :
    Kind.coordonneesNonNumeriques ∈ checkRecord r ↔
      condCoordNonNumeriques r = true := by
  simp [checkRecord, rules, List.mem_filter]

/-- Membership extraction for the invalid-coordinates kind. -/
lemma mem_coordonneesInvalides_iff (r : Record) :
    Kind.coordonneesInvalides ∈ checkRecord r ↔ condCoordInvalides r = true := by
  simp [checkRecord, rules, List.mem_filter]

/-- Membership extraction for the LRA protocol kind. -/
lemma mem_protocoleNotLRA_iff (r : Record) :
    Kind.protocoleNotLRA ∈ checkRecord r ↔ condRadioLra r = true := by
  simp [checkRecord, rules, List.mem_filter]

/-- Membership extraction for the SGX protocol kind. -/
lemma mem_protocoleNotSGX_iff (r : Record) :
    Kind.protocoleNotSGX ∈ checkRecord r ↔ condRadioSgx r = true := by
  simp [checkRecord, rules, List.mem_filter]

/-- Membership extraction for the FP2E format kind. -/
lemma mem_formatNonFp2e_iff (r : Record) :
    Kind.formatNonFp2e ∈ checkRecord r ↔
      condFp2eKind r .formatNonFp2e = true := by
  simp [checkRecord, rules, List.mem_filter]

/-- Membership extraction for the FP2E year-missing kind. -/
lemma mem_anneeFabricationManquanteInvalide_iff (r : Record) :
    Kind.anneeFabricationManquanteInvalide ∈ checkRecord r ↔
      condFp2eKind r .anneeFabricationManquanteInvalide = true := by
  simp [checkRecord, rules, List.mem_filter]

/-- Membership extraction for the FP2E year-mismatch kind. -/
lemma mem_anneeMillesimeNonConforme_iff (r : Record) :
    Kind.anneeMillesimeNonConforme ∈ checkRecord r ↔
      condFp2eKind r .anneeMillesimeNonConforme = true := by
  simp [checkRecord, rules, List.mem_filter]

/-- Membership extraction for the FP2E diameter-mismatch kind. -/
lemma mem_diametreNonConformeFp2e_iff (r : Record) :
    Kind.diametreNonConformeFp2e ∈ checkRecord r ↔
      condFp2eKind r .diametreNonConformeFp2e = true := by
  simp [checkRecord, rules, List.mem_filter]

/-- A row whose `Année de fabrication` cell is absent (NaN, i.e. "nan"
after `astype(str)`) and whose other fields are unremarkable. -/
def recC1 : Record :=
  { protocoleRadio := "SGX", marque := "X", numeroCompteur := "123",
    numeroTete := "T", latitude := some 1, longitude := some 1,
    anneeFabrication := "nan", diametre := some 20, traite := "",
    modeReleve := "" }

/-- C1: the code never records 'Année de fabrication manquante' for a row
whose manufacture-year cell is absent — lines 94-98 turn the empty cell
into the string "00" (`slice(-2)` of "" followed by `zfill(2)`), which
`pd.to_numeric` parses as 0, so the `isnull` test of line 143 is false.
This contradicts the claim (and the spec's "manufacture_year missing →
anomaly (always)"); evaluated here at a concrete such row. -/
theorem c1_missing_year_not_flagged :
    normCell recC1.anneeFabrication = "" ∧ yearN recC1 = "00"
      ∧ anneeNum recC1 = some 0
      ∧ Kind.anneeFabricationManquante ∉ checkRecord recC1 := by
  refine ⟨rfl, rfl, by decide, by decide⟩

/-- A KAIFA row in télérelève mode with an absent head serial. -/
def recC2 : Record :=
  { protocoleRadio := "SGX", marque := "KAIFA", numeroCompteur := "123",
    numeroTete := "nan", latitude := some 45, longitude := some 5,
    anneeFabrication := "5", diametre := some 20, traite := "",
    modeReleve := "TÉLERELEVE" }

/-- C2 counterexample: a row with an absent head serial, manufacturer
neither KAMSTRUP nor in manual mode, for which the code still does not
record 'Numéro de tête manquant' — the KAIFA + TÉLERELEVE exception of
lines 151-154 also suppresses it, refuting "no other condition suppresses
this anomaly". -/
theorem c2_counterexample :
    isMissingStr (teteN recC2) = true ∧ isKamstrup recC2 = false
      ∧ isManuelle recC2 = false
      ∧ Kind.numeroTeteManquant ∉ checkRecord recC2 := by
  decide

/-- C2 (amended): 'Numéro de tête manquant' is recorded iff the head
serial is absent, the manufacturer is not KAMSTRUP, the reading mode is
not manual, and the row is not a KAIFA row in TÉLERELEVE mode. -/
theorem c2_head_serial_rule (r : Record) :
    Kind.numeroTeteManquant ∈ checkRecord r ↔
      (isMissingStr (teteN r) = true ∧ isKamstrup r = false
        ∧ isManuelle r = false
        ∧ (isKaifa r = false ∨ isTelerel r = false)) := by
  rw [mem_numeroTeteManquant_iff]
  simp [condTeteManquante, Bool.and_eq_true, Bool.not_eq_true', and_assoc]

/-- A KAMSTRUP row whose meter serial starts with 'C'. -/
def recC4 : Record :=
  { protocoleRadio := "SGX", marque := "KAMSTRUP", numeroCompteur := "C1234567",
    numeroTete := "C1234567", latitude := some 45, longitude := some 5,
    anneeFabrication := "5", diametre := some 20, traite := "",
    modeReleve := "" }

/-- C4 counterexample: a row whose serial starts with 'C' and whose
manufacturer is not a SAPPEL (C) variant, for which the code records
neither brand/serial-inconsistency kind — lines 179-181 gate both checks
on the SAPPEL family, so they do not apply "regardless of recognized
family". -/
theorem c4_counterexample :
    strStartsWith (compteurN recC4) "C" = true
      ∧ pyUpper (marqueN recC4) ≠ "SAPPEL (C)"
      ∧ Kind.sappelIncoherenceC ∉ checkRecord recC4
      ∧ Kind.sappelIncoherenceH ∉ checkRecord recC4 := by
  decide

/-- C4 (amended): the serial-prefix consistency checks apply only to rows
of the SAPPEL family; within that family, a serial starting with 'C'
(resp. 'H') with an upper-cased brand different from "SAPPEL (C)" (resp.
"SAPPEL (H)") yields the corresponding inconsistency kind. -/
theorem c4_serial_prefix_rule (r : Record) :
    (Kind.sappelIncoherenceC ∈ checkRecord r ↔
      (isSappel r = true ∧ strStartsWith (compteurN r) "C" = true
        ∧ pyUpper (marqueN r) ≠ "SAPPEL (C)"))
    ∧ (Kind.sappelIncoherenceH ∈ checkRecord r ↔
      (isSappel r = true ∧ strStartsWith (compteurN r) "H" = true
        ∧ pyUpper (marqueN r) ≠ "SAPPEL (H)")) := by
  rw [mem_sappelIncoherenceC_iff, mem_sappelIncoherenceH_iff]
  simp [condSappelC, condSappelH, Bool.and_eq_true, Bool.not_eq_true',
    and_assoc]

/-- A KAMSTRUP row whose `Diametre` cell is absent or unparsable (NaN
after `pd.to_numeric(..., errors='coerce')`). -/
def recC10 : Record :=
  { protocoleRadio := "SGX", marque := "KAMSTRUP", numeroCompteur := "12345678",
    numeroTete := "nan", latitude := some 45, longitude := some 5,
    anneeFabrication := "5", diametre := none, traite := "",
    modeReleve := "" }

/-- C10: a KAMSTRUP row whose diameter is missing or unparsable gets the
KAMSTRUP range kind (NaN fails `between(15, 80)`, line 171) in addition
to the general missing-diameter kind (line 142). -/
theorem c10_kamstrup_missing_diametre (r : Record)
    (h1 : isKamstrup r = true) (h2 : r.diametre = none) :
    Kind.kamstrupDiametreHorsPlage ∈ checkRecord r
      ∧ Kind.diametreManquant ∈ checkRecord r := by
  constructor
  · rw [mem_kamstrupDiametreHorsPlage_iff]
    simp [condKamstrupDiametre, h1, h2, optBetween]
  · rw [mem_diametreManquant_iff]
    simp [condDiametreManquant, h2]

/-- C10 witness: the theorem applied to a concrete KAMSTRUP row with an
absent diameter. -/
theorem c10_kamstrup_missing_diametre_witness :
    Kind.kamstrupDiametreHorsPlage ∈ checkRecord recC10
      ∧ Kind.diametreManquant ∈ checkRecord recC10 :=
  c10_kamstrup_missing_diametre recC10 (by decide) (by decide)

/-- A KAIFA row in manual mode whose serial matches the FP2E grammar, with
a mismatched year and an absent diameter. -/
def recC3 : Record :=
  { protocoleRadio := "SGX", marque := "KAIFA", numeroCompteur := "A23BC123456",
    numeroTete := "nan", latitude := some 45, longitude := some 5,
    anneeFabrication := "24", diametre := none, traite := "",
    modeReleve := "MANUELLE" }

/-- C3 counterexample: a row of a manufacturer outside the SAPPEL and
ITRON families that nevertheless receives FP2E anomaly kinds — the
manual-mode arm of `fp2e_check_condition` (line 209) has no manufacturer
restriction, so any manual row with an FP2E-shaped serial is checked. -/
theorem c3_counterexample :
    isSappel recC3 = false ∧ isItron recC3 = false
      ∧ isManuelle recC3 = true
      ∧ Kind.anneeMillesimeNonConforme ∈ checkRecord recC3
      ∧ Kind.diametreNonConformeFp2e ∈ checkRecord recC3 := by
  decide

/-- C3 (amended): an FP2E anomaly kind is recorded exactly on the rows
eligible for the FP2E check for which the corresponding detail check
fails, and the eligible rows are the non-manual SAPPEL/ITRON rows plus
every manual-mode row — of any manufacturer — whose meter serial matches
the FP2E grammar. -/
theorem c3_fp2e_scope (r : Record) (k : Kind)
    (hk : k = Kind.formatNonFp2e ∨ k = Kind.anneeFabricationManquanteInvalide
      ∨ k = Kind.anneeMillesimeNonConforme ∨ k = Kind.diametreNonConformeFp2e) :
    k ∈ checkRecord r ↔
      ((((isSappel r || isItron r) && !isManuelle r)
          || (isManuelle r && fp2eMatch (compteurN r))) = true
        ∧ k ∈ checkFp2eDetails r) := by
  rcases hk with h | h | h | h <;> subst h
  · rw [mem_formatNonFp2e_iff]
    simp [condFp2eKind, fp2eCheckCondition, isManuelle, List.contains]
  · rw [mem_anneeFabricationManquanteInvalide_iff]
    simp [condFp2eKind, fp2eCheckCondition, isManuelle, List.contains]
  · rw [mem_anneeMillesimeNonConforme_iff]
    simp [condFp2eKind, fp2eCheckCondition, isManuelle, List.contains]
  · rw [mem_diametreNonConformeFp2e_iff]
    simp [condFp2eKind, fp2eCheckCondition, isManuelle, List.contains]

/-- C3 witness: the amended scope theorem applied to a concrete eligible
row whose diameter detail check fails. -/
theorem c3_fp2e_scope_witness :
    Kind.diametreNonConformeFp2e ∈ checkRecord recC3 :=
  (c3_fp2e_scope recC3 Kind.diametreNonConformeFp2e
    (Or.inr (Or.inr (Or.inr rfl)))).mpr ⟨by decide, by decide⟩

/-- A row whose latitude cell is not numeric. -/
def recC5a : Record :=
  { protocoleRadio := "SGX", marque := "X", numeroCompteur := "1",
    numeroTete := "T", latitude := none, longitude := some 5,
    anneeFabrication := "5", diametre := some 20, traite := "",
    modeReleve := "" }

/-- A row whose latitude is just above the upper bound. -/
def recC5b : Record :=
  { protocoleRadio := "SGX", marque := "X", numeroCompteur := "1",
    numeroTete := "T", latitude := some (90.0001 : ℚ), longitude := some 5,
    anneeFabrication := "5", diametre := some 20, traite := "",
    modeReleve := "" }

/-- C5: a row with an unparsable coordinate gets the non-numeric kind
(line 157); a row whose two coordinates parse gets the invalid kind iff a
coordinate is zero or out of its inclusive range (lines 158-160). -/
theorem c5_coordinate_rules (r : Record) :
    ((r.latitude = none ∨ r.longitude = none) →
      Kind.coordonneesNonNumeriques ∈ checkRecord r)
    ∧ (∀ la lo : ℚ, r.latitude = some la → r.longitude = some lo →
        (Kind.coordonneesInvalides ∈ checkRecord r ↔
          (la = 0 ∨ lo = 0 ∨ la < -90 ∨ 90 < la ∨ lo < -180 ∨ 180 < lo))) := by
  constructor
  · intro h
    rw [mem_coordonneesNonNumeriques_iff]
    rcases h with h | h <;> simp [condCoordNonNumeriques, h]
  · intro la lo hla hlo
    rw [mem_coordonneesInvalides_iff]
    simp [condCoordInvalides, optEqZero, optBetween, hla, hlo, not_and_or,
      not_le]
    tauto

/-- C5 witness: the theorem applied to a row with a non-numeric latitude
and to a row with latitude 90.0001. -/
theorem c5_coordinate_rules_witness :
    Kind.coordonneesNonNumeriques ∈ checkRecord recC5a
      ∧ Kind.coordonneesInvalides ∈ checkRecord recC5b :=
  ⟨(c5_coordinate_rules recC5a).1 (Or.inl rfl),
   ((c5_coordinate_rules recC5b).2 (90.0001 : ℚ) 5 rfl rfl).mpr
     (by norm_num)⟩

/-- A non-manual row with `Traité` starting in 903 and radio protocol
written "lra" in lower case. -/
def recC6 : Record :=
  { protocoleRadio := "lra", marque := "X", numeroCompteur := "1",
    numeroTete := "T", latitude := some 45, longitude := some 5,
    anneeFabrication := "5", diametre := some 20, traite := "903ABC",
    modeReleve := "" }

/-- C6 counterexample: a non-manual row with a present radio protocol on
a 903-prefixed network whose protocol differs from the string "LRA", yet
no protocol anomaly is recorded — line 195 compares after `str.upper()`,
so "lra" passes, refuting the claim's literal inequality. -/
theorem c6_counterexample :
    traiteLra recC6 = true ∧ protocoleN recC6 = "lra"
      ∧ protocoleN recC6 ≠ "LRA" ∧ isManuelle recC6 = false
      ∧ protocoleFilled recC6 = true
      ∧ Kind.protocoleNotLRA ∉ checkRecord recC6 := by
  decide

/-- C6 (amended): for a non-manual row with a present radio protocol, the
LRA kind is recorded iff the network code starts with 903 or 863 and the
upper-cased protocol differs from "LRA"; the SGX kind iff the network
code has neither prefix and the upper-cased protocol differs from "SGX". -/
theorem c6_protocole_rules (r : Record) :
    (Kind.protocoleNotLRA ∈ checkRecord r ↔
      (traiteLra r = true ∧ pyUpper (protocoleN r) ≠ "LRA"
        ∧ isManuelle r = false ∧ protocoleFilled r = true))
    ∧ (Kind.protocoleNotSGX ∈ checkRecord r ↔
      (traiteLra r = false ∧ pyUpper (protocoleN r) ≠ "SGX"
        ∧ isManuelle r = false ∧ protocoleFilled r = true)) := by
  rw [mem_protocoleNotLRA_iff, mem_protocoleNotSGX_iff]
  simp [condRadioLra, condRadioSgx, Bool.and_eq_true, Bool.not_eq_true',
    and_assoc]

/-- Unfolding of `anomalousRecords` over one row. -/
lemma anomalousRecords_cons (r : Record) (rest : List Record) :
    anomalousRecords (r :: rest) =
      if (checkRecord r).isEmpty then anomalousRecords rest
      else (r, checkRecord r) :: anomalousRecords rest := by
  simp only [anomalousRecords, evalRows, List.map_cons, List.filter_cons]
  cases h : (checkRecord r).isEmpty <;> simp [h]

/-- C7: every input row is evaluated (the evaluated list projects back to
the input), and a row appears in the anomalous output iff its anomaly-kind
list is non-empty (line 244); conforming rows are merely excluded, never
dropped from evaluation. -/
theorem c7_coverage (rows : List Record) :
    ((evalRows rows).map Prod.fst = rows)
    ∧ ∀ r : Record, ((r, checkRecord r) ∈ anomalousRecords rows ↔
        (r ∈ rows ∧ checkRecord r ≠ [])) := by
  constructor
  · simp only [evalRows, List.map_map]
    rw [show (Prod.fst ∘ fun r : Record => (r, checkRecord r)) = id from rfl,
      List.map_id]
  · intro r
    simp [anomalousRecords, evalRows, List.mem_filter, List.mem_map]
    intro _
    constructor
    · rintro ⟨a, ha, rfl, _⟩
      exact ha
    · intro hr
      exact ⟨r, hr, rfl, rfl⟩

/-- C8: for every kind, the frequency count computed from the exploded
labels of the anomalous rows (lines 249-250) equals the number of rows
whose kind list contains that kind; this uses the per-row deduplication
invariant `checkRecord_nodup`. -/
theorem c8_count_consistency (rows : List Record) (k : Kind) :
    anomalyCounter rows k
      = rows.countP (fun r => decide (k ∈ checkRecord r)) := by
  induction rows with
  | nil => rfl
  | cons r rest ih =>
    have hstep : anomalyCounter (r :: rest) k =
        (((anomalousRecords (r :: rest)).map (fun p => p.2)).flatten).count k :=
      rfl
    rw [List.countP_cons, hstep, anomalousRecords_cons]
    by_cases h : (checkRecord r).isEmpty
    · have hk : ¬ k ∈ checkRecord r := by
        rw [List.isEmpty_iff] at h
        simp [h]
      rw [if_pos h]
      simp [hk, ← ih, anomalyCounter]
    · rw [if_neg h]
      simp only [List.map_cons, List.flatten_cons, List.count_append]
      by_cases hk : k ∈ checkRecord r
      · rw [List.count_eq_one_of_mem (checkRecord_nodup r) hk]
        simp [hk, ← ih, anomalyCounter]
        omega
      · rw [List.count_eq_zero_of_not_mem hk]
        simp [hk, ← ih, anomalyCounter]

/-- A row with an absent radio protocol, head serial and manufacture year
whose rules all tolerate those absences (KAMSTRUP, manual mode, year
normalized to "00"): it accumulates no anomaly kind at all. -/
def recC9 : Record :=
  { protocoleRadio := "nan", marque := "KAMSTRUP", numeroCompteur := "12345678",
    numeroTete := "nan", latitude := some 45, longitude := some 5,
    anneeFabrication := "nan", diametre := some 20, traite := "X",
    modeReleve := "MANUELLE" }

/-- A table with all required columns and the row `recC9`. -/
def tableC9 : RawTable :=
  { cols := requiredColumns, rows := [recC9] }

/-- C9 counterexample: a row with several absent field values (radio
protocol, head serial, manufacture year) for which no anomaly kind at all
is recorded, refuting "every unparsable or missing field value is
converted into a specific anomaly kind on that record" — the head-serial
and protocol absences are suppressed by the rules' exceptions, and the
absent year is normalized to "00" and silently accepted. -/
theorem c9_counterexample :
    normCell recC9.protocoleRadio = "" ∧ normCell recC9.numeroTete = ""
      ∧ normCell recC9.anneeFabrication = ""
      ∧ checkRecord recC9 = [] := by
  decide

/-- C9 (amended): on any table containing the ten required columns, the
pass returns its results without raising if and only if no
manufacture-year cell makes line 96 raise (its digit guard passes but
`float` rejects a digit-only character — ValueError — or overflows to
infinity — OverflowError at `int`); in that case every row is evaluated
against the rules and never dropped, and missing or unparsable values
never abort a row, though they yield an anomaly kind only when a rule's
condition demands it. -/
theorem c9_no_raise (t : RawTable)
    (h : ∀ c ∈ requiredColumns, t.cols.contains c = true) :
    (checkData t = Except.ok (anomalousRecords t.rows, anomalyCounter t.rows)
      ↔ ∀ r ∈ t.rows, yearRaises r.anneeFabrication = false)
    ∧ (evalRows t.rows).map Prod.fst = t.rows := by
  have hy : t.cols.contains "Année de fabrication" = true :=
    h _ (by decide)
  constructor
  · unfold checkData
    rw [hy]
    by_cases hr : t.rows.any (fun r => yearRaises r.anneeFabrication) = true
    · rw [if_neg (by simp), if_pos hr]
      simp only [List.any_eq_true] at hr
      obtain ⟨r0, hr0, hraise⟩ := hr
      constructor
      · intro hcontra
        exact absurd hcontra (by simp)
      · intro hall
        exact absurd (hall r0 hr0) (by simp [hraise])
    · rw [if_neg (by simp), if_neg hr,
        if_pos (List.all_eq_true.mpr h)]
      have hall : ∀ r ∈ t.rows, yearRaises r.anneeFabrication = false := by
        rw [Bool.not_eq_true] at hr
        exact fun r hmem => by
          have := List.any_eq_false.mp hr r hmem
          simpa using this
      exact iff_of_true rfl hall
  · simp only [evalRows, List.map_map]
    rw [show (Prod.fst ∘ fun r : Record => (r, checkRecord r)) = id from rfl,
      List.map_id]

/-- C9 witness: the amended theorem applied to a concrete complete table
none of whose year cells makes line 96 raise. -/
theorem c9_no_raise_witness :
    checkData tableC9
      = Except.ok (anomalousRecords tableC9.rows, anomalyCounter tableC9.rows) :=
  ((c9_no_raise tableC9 (by decide)).1).mpr (by decide)

end ControleTele
